import Mathlib

/-!
Shallow embedding of the Authentication & Session Lifecycle subsystem of
the `shery_todo_app` repository (backend/app/security.py and
backend/app/services/auth_service.py), together with proofs checking the
specification's claims against it.

Modelling conventions:
* Time is a `Nat` (minutes since an arbitrary epoch); `datetime.now(UTC)`
  becomes an explicit `now` parameter, `timedelta(minutes=m)` becomes `m`,
  `timedelta(hours=24)` becomes `1440`.
* User ids (UUIDs in the source) are `Nat`; `str(user.id)` is `toString id`
  and `UUID(s)` is `uuidParse s` (raising `ValueError` on a bad string
  becomes returning `none`).
* A JWT is modelled structurally: a token signed with the process-wide key
  is `Token.signed payload`; any other string (bad signature, garbage) is
  `Token.malformed s`.  HMAC signing is deterministic and the encoding of a
  payload is injective, so equality of token strings is equality of
  `Token` values.
* A bcrypt digest is modelled structurally: `Digest.bcrypt pw salt` is the
  output of `bcrypt.hashpw` for password `pw` with salt `salt` (an ideal
  collision-free hash); `Digest.malformed s` is any string that is not
  valid bcrypt output.  `bcrypt.checkpw` raises `ValueError` ("Invalid
  salt") when its second argument is not valid bcrypt output; this is
  modelled with the `Except PyError` result of `verify_password`.
* The SQLAlchemy session is a `DB` value threaded explicitly; each
  `AuthService` operation returns its result together with the new `DB`
  (exceptions raised after a commit still return the committed `DB`).
-/

/-- A Python exception escaping from library code (here: `ValueError`). -/
inductive PyError where
  | valueError : PyError
deriving DecidableEq, Repr

/-- The error taxonomy of `app/utils/errors.py`, each carrying its message;
`pyError` records an exception from library code that the service does not
catch. -/
inductive AuthError where
  | validation : String → AuthError
  | conflict : String → AuthError
  | unauthorized : String → AuthError
  | notFound : String → AuthError
  | pyError : PyError → AuthError
deriving DecidableEq, Repr

/-- A bcrypt digest string: either genuine `bcrypt.hashpw` output (which
records the hashed password and the salt used) or a string that is not
valid bcrypt output. -/
inductive Digest where
  | bcrypt : String → Nat → Digest
  | malformed : String → Digest
deriving DecidableEq, Repr

/-- `hash_password` (security.py): bcrypt-hash the password with a fresh
random salt; the salt is an explicit parameter here. -/
def hash_password (password : String) (salt : Nat) : Digest :=
  Digest.bcrypt password salt

/-- `verify_password` (security.py): `bcrypt.checkpw(plain, hashed)` with no
exception handling.  `checkpw` re-hashes the plaintext with the salt parsed
from the digest and compares; it raises `ValueError` ("Invalid salt") when
the digest is not valid bcrypt output, and `verify_password` lets that
exception propagate. -/
def verify_password (plain_password : String) (hashed_password : Digest) :
    Except PyError Bool :=
  match hashed_password with
  | .bcrypt pw _ => .ok (plain_password == pw)
  | .malformed _ => .error .valueError

/-- The JWT claim dictionary used by security.py: the keys that ever occur
are `sub`, `email`, `type`, `iat`, `exp`; a missing key is `none`. -/
structure TokenData where
  sub : Option String := none
  email : Option String := none
  type : Option String := none
  iat : Option Nat := none
  exp : Option Nat := none
deriving DecidableEq, Repr

/-- A JWT string: `signed payload` is `jwt.encode(payload, settings.jwt_secret)`;
`malformed s` is any string that does not verify against the process key. -/
inductive Token where
  | signed : TokenData → Token
  | malformed : String → Token
deriving DecidableEq, Repr

/-- The token-relevant part of `app/config.py` `Settings` (defaults:
7 days and 30 days, in minutes). -/
structure Settings where
  access_token_expire_minutes : Nat
  access_token_expire_minutes_remember : Nat

/-- The process-wide `settings` instance with its default values. -/
def settings : Settings :=
  { access_token_expire_minutes := 10080
    access_token_expire_minutes_remember := 43200 }

/-- `create_access_token` (security.py): copy the caller's claim dict, then
`to_encode.update({"exp": now+ttl, "iat": now, "type": "access"})` — the
update overwrites any `exp` or `type` entry the caller supplied — and sign
the result. -/
def create_access_token (data : TokenData) (remember_me : Bool) (now : Nat) :
    Token :=
  let expires_delta :=
    if remember_me then settings.access_token_expire_minutes_remember
    else settings.access_token_expire_minutes
  let expire := now + expires_delta
  let to_encode :=
    { data with exp := some expire, iat := some now, type := some "access" }
  Token.signed to_encode

/-- `decode_access_token` (security.py): verify signature and expiry,
returning `none` (instead of letting `JWTError` escape) on failure.  A
token is expired once the current time reaches its `exp` claim. -/
def decode_access_token (token : Token) (now : Nat) : Option TokenData :=
  match token with
  | .signed payload =>
    match payload.exp with
    | some e => if now < e then some payload else none
    | none => some payload
  | .malformed _ => none

/-- `User` rows (models/user.py): the fields the auth service reads or
writes.  `avatar_url`, `timezone`, `language` are nullable columns. -/
structure UserRec where
  id : Nat
  email : String
  hashed_password : Digest
  full_name : String
  email_verified : Bool
  avatar_url : Option String
  timezone : Option String
  language : Option String
deriving DecidableEq, Repr

/-- `Session` rows (models/session.py): one active login. -/
structure SessionRec where
  id : Nat
  user_id : Nat
  token : Token
  refresh_token : Token
  expires_at : Nat
  ip_address : Option String
  user_agent : Option String
deriving DecidableEq, Repr

/-- The durable store: the `users` and `sessions` tables as row lists. -/
structure DB where
  users : List UserRec
  sessions : List SessionRec
deriving DecidableEq, Repr

/-- Python's `str.lower()`: lowercase every character. -/
def pyLower (s : String) : String :=
  String.mk (s.data.map Char.toLower)

/-- Python's `str.strip()`: drop leading and trailing whitespace. -/
def pyStrip (s : String) : String :=
  String.mk (((s.data.dropWhile Char.isWhitespace).reverse.dropWhile
    Char.isWhitespace).reverse)

/-- Python's `UUID(s)` under the Nat-id model (ids print as decimal
strings): parse a non-empty all-digit string, otherwise the `ValueError`
branch of the callers applies. -/
def uuidParse (s : String) : Option Nat :=
  if s.data.isEmpty then none
  else if s.data.all Char.isDigit then
    some (s.data.foldl (fun n c => n * 10 + (c.toNat - 48)) 0)
  else none

/-- Email normalisation as written inline throughout auth_service.py:
`email.lower().strip()`. -/
def normalizeEmail (email : String) : String :=
  pyStrip (pyLower email)

/-- `AuthService.get_user_by_id`. -/
def get_user_by_id (db : DB) (user_id : Nat) : Option UserRec :=
  db.users.find? (fun u => u.id == user_id)

/-- `AuthService.get_user_by_email` (normalises its argument itself). -/
def get_user_by_email (db : DB) (email : String) : Option UserRec :=
  let e := normalizeEmail email
  db.users.find? (fun u => u.email == e)

/-- `AuthService.signin` (auth_service.py lines 95-168): normalise the
email, look up the user, verify the password (both failures use the same
`UnauthorizedError` message), mint an access token (tier chosen by
`remember_me`) and a refresh token (data carries `type: "refresh"`,
always extended tier), compute the session expiry from the access tier,
and insert a new `Session` row.  `sid` stands for the fresh row id the
store assigns. -/
def signin (db : DB) (email password : String) (remember_me : Bool)
    (ip_address user_agent : Option String) (now sid : Nat) :
    Except AuthError (UserRec × SessionRec × Token × Token) × DB :=
  let e := normalizeEmail email
  match db.users.find? (fun u => u.email == e) with
  | none => (.error (.unauthorized "Invalid email or password"), db)
  | some user =>
    match verify_password password user.hashed_password with
    | .error pe => (.error (.pyError pe), db)
    | .ok false => (.error (.unauthorized "Invalid email or password"), db)
    | .ok true =>
      let access_token :=
        create_access_token
          { sub := some (toString user.id), email := some user.email }
          remember_me now
      let refresh_token :=
        create_access_token
          { sub := some (toString user.id), type := some "refresh" }
          true now
      let expires_delta :=
        if remember_me then settings.access_token_expire_minutes_remember
        else settings.access_token_expire_minutes
      let session : SessionRec :=
        { id := sid
          user_id := user.id
          token := access_token
          refresh_token := refresh_token
          expires_at := now + expires_delta
          ip_address := ip_address
          user_agent := user_agent }
      (.ok (user, session, access_token, refresh_token),
       { db with sessions := db.sessions ++ [session] })

/-- `AuthService.signout` (lines 170-189): look up the session by access
token; delete it and return `true` if found, return `false` otherwise. -/
def signout (db : DB) (token : Token) : Bool × DB :=
  match db.sessions.find? (fun s => s.token == token) with
  | some _ =>
    (true, { db with sessions := db.sessions.eraseP (fun s => s.token == token) })
  | none => (false, db)

/-- The `full_name` branch of `AuthService.update_profile` (lines 257-260):
`if full_name is not None`, reject a trimmed name shorter than 2
characters, else assign the trimmed name. -/
def validateFullName (user : UserRec) (full_name : Option String) :
    Except AuthError UserRec :=
  match full_name with
  | some fn =>
    if (pyStrip fn).length < 2 then
      .error (.validation "Full name must be at least 2 characters")
    else .ok { user with full_name := pyStrip fn }
  | none => .ok user

/-- `if avatar_url is not None: user.avatar_url = avatar_url`
(update_profile lines 262-263). -/
def setAvatar (user : UserRec) (avatar_url : Option String) : UserRec :=
  match avatar_url with
  | some a => { user with avatar_url := some a }
  | none => user

/-- `if timezone is not None: user.timezone = timezone`
(update_profile lines 265-266). -/
def setTimezone (user : UserRec) (timezone : Option String) : UserRec :=
  match timezone with
  | some t => { user with timezone := some t }
  | none => user

/-- `if language is not None: user.language = language`
(update_profile lines 268-269). -/
def setLanguage (user : UserRec) (language : Option String) : UserRec :=
  match language with
  | some l => { user with language := some l }
  | none => user

/-- `AuthService.update_profile` (lines 228-274): each argument, when not
`None`, replaces the corresponding field; a provided `full_name` must
still be at least 2 characters after trimming. -/
def update_profile (db : DB) (user_id : Nat)
    (full_name avatar_url timezone language : Option String) :
    Except AuthError UserRec × DB :=
  match get_user_by_id db user_id with
  | none => (.error (.notFound "User not found"), db)
  | some user =>
    match validateFullName user full_name with
    | .error err => (.error err, db)
    | .ok u1 =>
      let u4 := setLanguage (setTimezone (setAvatar u1 avatar_url) timezone) language
      (.ok u4,
       { db with users := db.users.map (fun u => if u.id == user_id then u4 else u) })

/-- `AuthService.change_password` (lines 276-326): resolve the user, verify
the current password, validate the new one, persist the new hash, then
delete every `Session` row whose `user_id` is this user. -/
def change_password (db : DB) (user_id : Nat)
    (current_password new_password : String) (salt : Nat) :
    Except AuthError UserRec × DB :=
  match get_user_by_id db user_id with
  | none => (.error (.notFound "User not found"), db)
  | some user =>
    match verify_password current_password user.hashed_password with
    | .error pe => (.error (.pyError pe), db)
    | .ok false => (.error (.unauthorized "Current password is incorrect"), db)
    | .ok true =>
      if new_password.length < 8 then
        (.error (.validation "Password must be at least 8 characters"), db)
      else
        let user' := { user with hashed_password := hash_password new_password salt }
        (.ok user',
         { db with
             users := db.users.map (fun u => if u.id == user_id then user' else u)
             sessions := db.sessions.filter (fun s => s.user_id != user_id) })

/-- `AuthService.refresh_access_token` (lines 328-399): decode the token
and require claim `type == "refresh"` and a parseable `sub` (an empty
`sub` is falsy in Python and also rejected); look up the session by
refresh token; a session past its expiry is deleted and the call fails;
otherwise mint fresh access and refresh tokens (both extended tier) and
overwrite the same session row's token fields and expiry. -/
def refresh_access_token (db : DB) (refresh_token : Token) (now : Nat) :
    Except AuthError (Token × Token) × DB :=
  match decode_access_token refresh_token now with
  | none => (.error (.unauthorized "Invalid refresh token"), db)
  | some payload =>
    if payload.type ≠ some "refresh" then
      (.error (.unauthorized "Invalid refresh token"), db)
    else
      match payload.sub with
      | none => (.error (.unauthorized "Invalid refresh token"), db)
      | some sub =>
        if sub = "" then (.error (.unauthorized "Invalid refresh token"), db)
        else
          match uuidParse sub with
          | none => (.error (.unauthorized "Invalid refresh token"), db)
          | some user_id =>
            match db.sessions.find? (fun s => s.refresh_token == refresh_token) with
            | none => (.error (.unauthorized "Session not found"), db)
            | some session =>
              if session.expires_at < now then
                (.error (.unauthorized "Session expired"),
                 { db with
                     sessions := db.sessions.eraseP
                       (fun s => s.refresh_token == refresh_token) })
              else
                match get_user_by_id db user_id with
                | none => (.error (.unauthorized "User not found"), db)
                | some user =>
                  let new_access_token :=
                    create_access_token
                      { sub := some (toString user.id), email := some user.email }
                      true now
                  let new_refresh_token :=
                    create_access_token
                      { sub := some (toString user.id), type := some "refresh" }
                      true now
                  let session' :=
                    { session with
                        token := new_access_token
                        refresh_token := new_refresh_token
                        expires_at := now + settings.access_token_expire_minutes_remember }
                  (.ok (new_access_token, new_refresh_token),
                   { db with
                       sessions := db.sessions.map
                         (fun s => if s.id == session.id then session' else s) })

/-- `AuthService.create_verification_token` (lines 401-420): build a claim
dict with the requested `type` ("verify" or "reset") and a 24-hour `exp`,
and pass it to `create_access_token` with `remember_me=False` (which then
overwrites both entries). -/
def create_verification_token (user_id : Nat) (token_type : String) (now : Nat) :
    Token :=
  let data : TokenData :=
    { sub := some (toString user_id), type := some token_type, exp := some (now + 1440) }
  create_access_token data false now

/-- `AuthService.verify_token` (lines 422-451): decode, require the claim
`type` to equal `expected_type`, require a non-empty `sub`, and parse it
as a UUID; every failure returns `None`. -/
def verify_token (token : Token) (expected_type : String) (now : Nat) :
    Option Nat :=
  match decode_access_token token now with
  | none => none
  | some payload =>
    if payload.type ≠ some expected_type then none
    else
      match payload.sub with
      | none => none
      | some sub =>
        if sub = "" then none
        else uuidParse sub

/-- `AuthService.forgot_password` (lines 517-555): normalise the email;
if no user has it, return `None` without error; otherwise mint a
24-hour "reset" token via `create_verification_token`. -/
def forgot_password (db : DB) (email : String) (now : Nat) : Option Token :=
  let e := normalizeEmail email
  match get_user_by_email db e with
  | none => none
  | some user => some (create_verification_token user.id "reset" now)

/-- `AuthService.reset_password` (lines 557-602): validate the new
password length first, then verify the "reset" token, resolve the user,
persist the new hash and delete all of the user's sessions. -/
def reset_password (db : DB) (token : Token) (new_password : String)
    (salt now : Nat) : Except AuthError UserRec × DB :=
  if new_password.length < 8 then
    (.error (.validation "Password must be at least 8 characters"), db)
  else
    match verify_token token "reset" now with
    | none => (.error (.unauthorized "Invalid or expired reset token"), db)
    | some user_id =>
      match get_user_by_id db user_id with
      | none => (.error (.notFound "User not found"), db)
      | some user =>
        let user' := { user with hashed_password := hash_password new_password salt }
        (.ok user',
         { db with
             users := db.users.map (fun u => if u.id == user_id then user' else u)
             sessions := db.sessions.filter (fun s => s.user_id != user_id) })

/-! Concrete scenario shared by several checks: one registered user
`alice@x.com` with password `password123` (hashed with salt 7), who signs
in at time 0 with `remember_me=False`; the store assigns session row id 1. -/

/-- The registered user of the concrete scenario. -/
def alice : UserRec :=
  { id := 1
    email := "alice@x.com"
    hashed_password := hash_password "password123" 7
    full_name := "Alice A"
    email_verified := false
    avatar_url := none
    timezone := none
    language := none }

/-- A store with no rows at all. -/
def dbEmpty : DB := { users := [], sessions := [] }

/-- The store before Alice signs in. -/
def db0 : DB := { users := [alice], sessions := [] }

/-- The access token Alice's signin at time 0 returns. -/
def tokA : Token :=
  create_access_token
    { sub := some (toString alice.id), email := some alice.email } false 0

/-- The refresh token Alice's signin at time 0 returns (its claim dict is
built with `type: "refresh"` before `create_access_token` rewrites it). -/
def tokR : Token :=
  create_access_token
    { sub := some (toString alice.id), type := some "refresh" } true 0

/-- The session row Alice's signin creates. -/
def sess1 : SessionRec :=
  { id := 1
    user_id := 1
    token := tokA
    refresh_token := tokR
    expires_at := 10080
    ip_address := none
    user_agent := none }

/-- The store after Alice signs in. -/
def db1 : DB := { users := [alice], sessions := [sess1] }

/-- C1: after signin the access token decodes to sub = user id with purpose
tag "access" as claimed, but the refresh token also decodes to purpose tag
"access" — `create_access_token` overwrites the `type: "refresh"` entry
the signin code put in the claim dict — so the refresh-token half of the
claim is false on this code. -/
theorem c1_signin_refresh_token_carries_access_purpose :
    (signin db0 "alice@x.com" "password123" false none none 0 1).1 =
      .ok (alice, sess1, tokA, tokR) ∧
    decode_access_token tokA 0 =
      some { sub := some "1", email := some "alice@x.com",
             type := some "access", iat := some 0, exp := some 10080 } ∧
    decode_access_token tokR 0 =
      some { sub := some "1", email := none,
             type := some "access", iat := some 0, exp := some 43200 } :=
  ⟨rfl, rfl, rfl⟩

/-- C2: the first `refresh_access_token` call with the refresh token that
signin just returned already fails with `UnauthorizedError` ("Invalid
refresh token"), because the token's `type` claim was rewritten to
"access"; no rotation ever happens, contrary to the claim (and to the
repository's own test_refresh_access_token_success). -/
theorem c2_first_refresh_call_already_rejected :
    (signin db0 "alice@x.com" "password123" false none none 0 1).2 = db1 ∧
    refresh_access_token db1 tokR 5 =
      (.error (.unauthorized "Invalid refresh token"), db1) :=
  ⟨rfl, rfl⟩

/-- C4: `create_verification_token` asks for purpose "verify"/"reset" and a
24-hour expiry, but the token it returns carries purpose "access" and the
7-day default expiry (10080 minutes, not 1440): `create_access_token`
overwrites both entries.  The "verify" and "reset" tokens are even the
identical token, and `verify_token` rejects them for their own intended
purpose. -/
theorem c4_verification_tokens_lose_purpose_and_ttl :
    create_verification_token 1 "verify" 0 =
      Token.signed { sub := some "1", email := none,
                     type := some "access", iat := some 0, exp := some 10080 } ∧
    create_verification_token 1 "reset" 0 = create_verification_token 1 "verify" 0 ∧
    verify_token (create_verification_token 1 "verify" 0) "verify" 0 = none ∧
    verify_token (create_verification_token 1 "reset" 0) "reset" 0 = none := by
  decide

/-- C5 counterexample: `verify_password` on a digest that is not valid
bcrypt output does not return a boolean — `bcrypt.checkpw` raises
`ValueError` and the function lets it propagate. -/
theorem c5_verify_raises_on_malformed_digest :
    verify_password "password123" (Digest.malformed "notahash") =
      .error PyError.valueError := rfl

/-- C5 amended: for digests produced by `hash_password`, `verify_password`
never throws and returns true exactly when the plaintext is the hashed
one; for a malformed digest it raises `ValueError` instead of returning
false. -/
theorem c5_verify_behaviour (plain other junk : String) (salt : Nat) :
    verify_password plain (hash_password plain salt) = .ok true ∧
    verify_password other (hash_password plain salt) = .ok (other == plain) ∧
    verify_password plain (Digest.malformed junk) = .error PyError.valueError := by
  refine ⟨?_, rfl, rfl⟩
  simp [verify_password, hash_password]

/-- C6: signin with an unknown email and signin with a known email but a
wrong password fail with an `UnauthorizedError` carrying the identical
message "Invalid email or password", leaving the store unchanged: the two
failures are indistinguishable to the caller. -/
theorem c6_signin_failure_messages_identical
    (db : DB) (email password : String) (remember : Bool)
    (ip ua : Option String) (now sid : Nat) :
    (db.users.find? (fun u => u.email == normalizeEmail email) = none →
      signin db email password remember ip ua now sid =
        (.error (.unauthorized "Invalid email or password"), db)) ∧
    (∀ u, db.users.find? (fun u => u.email == normalizeEmail email) = some u →
      verify_password password u.hashed_password = .ok false →
      signin db email password remember ip ua now sid =
        (.error (.unauthorized "Invalid email or password"), db)) := by
  constructor
  · intro h
    simp only [signin, h]
  · intro u h1 h2
    simp only [signin, h1, h2]

/-- C6 witness: the unknown-email case and the wrong-password case at
concrete inputs, both yielding the same error. -/
theorem c6_signin_failure_messages_identical_witness :
    signin dbEmpty "ghost@x.com" "whatever1" false none none 0 1 =
      (.error (.unauthorized "Invalid email or password"), dbEmpty) ∧
    signin db0 "alice@x.com" "wrongpass99" false none none 0 1 =
      (.error (.unauthorized "Invalid email or password"), db0) :=
  ⟨(c6_signin_failure_messages_identical dbEmpty "ghost@x.com" "whatever1"
      false none none 0 1).1 rfl,
   (c6_signin_failure_messages_identical db0 "alice@x.com" "wrongpass99"
      false none none 0 1).2 alice rfl rfl⟩

/-- C8: `forgot_password` is total (its return type is `Option`, no error
path): with no matching user it returns `none` and mints no token; with a
matching user it returns exactly the token minted by
`create_verification_token(user.id, "reset")`, whose claims carry the
user's id as subject. -/
theorem c8_forgot_password_no_user_leak
    (db : DB) (email : String) (now : Nat) :
    (get_user_by_email db (normalizeEmail email) = none →
      forgot_password db email now = none) ∧
    (∀ u, get_user_by_email db (normalizeEmail email) = some u →
      forgot_password db email now =
        some (create_verification_token u.id "reset" now) ∧
      ∃ p, decode_access_token (create_verification_token u.id "reset" now) now =
          some p ∧ p.sub = some (toString u.id)) := by
  constructor
  · intro h
    simp only [forgot_password, h]
  · intro u h
    refine ⟨by simp only [forgot_password, h], ?_⟩
    have hlt : now < now + 10080 := by omega
    refine ⟨{ sub := some (toString u.id), email := none, type := some "access",
              iat := some now, exp := some (now + 10080) }, ?_, rfl⟩
    simp [create_verification_token, create_access_token, decode_access_token,
      settings, hlt]

/-- C8 witness: an unregistered and a registered email at concrete inputs. -/
theorem c8_forgot_password_no_user_leak_witness :
    forgot_password dbEmpty "nobody@example.com" 0 = none ∧
    forgot_password db0 "alice@x.com" 0 =
      some (create_verification_token alice.id "reset" 0) :=
  ⟨(c8_forgot_password_no_user_leak dbEmpty "nobody@example.com" 0).1 rfl,
   ((c8_forgot_password_no_user_leak db0 "alice@x.com" 0).2 alice rfl).1⟩

/-- C9: `reset_password` checks the new password's length before doing
anything with the token, so a password shorter than 8 characters yields
`ValidationError` for every token whatsoever and leaves the store
untouched. -/
theorem c9_reset_password_short_password_is_validation_error
    (db : DB) (token : Token) (new_password : String) (salt now : Nat)
    (h : new_password.length < 8) :
    reset_password db token new_password salt now =
      (.error (.validation "Password must be at least 8 characters"), db) := by
  simp only [reset_password, if_pos h]

/-- C9 witness: a short password with a garbage token. -/
theorem c9_reset_password_short_password_witness :
    reset_password db0 (Token.malformed "junk-token") "short" 3 0 =
      (.error (.validation "Password must be at least 8 characters"), db0) :=
  c9_reset_password_short_password_is_validation_error db0
    (Token.malformed "junk-token") "short" 3 0 (by decide)

/-- Helper: if at most one element of a list satisfies `p`, then after
`eraseP p` no element satisfying `p` remains. -/
theorem find?_eraseP_of_countP_le_one {α : Type} (p : α → Bool) :
    ∀ l : List α, l.countP p ≤ 1 → (l.eraseP p).find? p = none := by
  intro l
  induction l with
  | nil => intro _; rfl
  | cons a tl ih =>
    intro h
    by_cases hpa : p a
    · rw [List.eraseP_cons_of_pos hpa]
      rw [List.countP_cons_of_pos p tl hpa] at h
      have h0 : tl.countP p = 0 := by omega
      exact List.find?_eq_none.mpr fun x hx => List.countP_eq_zero.mp h0 x hx
    · rw [List.eraseP_cons_of_neg hpa, List.find?_cons_of_neg _ hpa]
      rw [List.countP_cons_of_neg p tl hpa] at h
      exact ih h

/-- C3: a successful `change_password` (user present, current password
correct, new password of at least 8 characters) replaces the stored hash
and deletes every session of that user; a subsequent `signout` with any
token that only this user's sessions carried returns `false` and changes
nothing. -/
theorem c3_change_password_revokes_all_sessions
    (db : DB) (uid : Nat) (cur new : String) (salt : Nat) (u : UserRec) (t : Token)
    (hu : get_user_by_id db uid = some u)
    (hpw : verify_password cur u.hashed_password = .ok true)
    (hlen : 8 ≤ new.length)
    (ht : ∀ s ∈ db.sessions, s.token = t → s.user_id = uid) :
    change_password db uid cur new salt =
      (.ok { u with hashed_password := hash_password new salt },
       { db with
           users := db.users.map (fun x =>
             if x.id == uid then { u with hashed_password := hash_password new salt }
             else x)
           sessions := db.sessions.filter (fun s => s.user_id != uid) }) ∧
    (∀ s ∈ (change_password db uid cur new salt).2.sessions, s.user_id ≠ uid) ∧
    signout (change_password db uid cur new salt).2 t =
      (false, (change_password db uid cur new salt).2) := by
  have hnl : ¬ new.length < 8 := by omega
  have hcp : change_password db uid cur new salt =
      (.ok { u with hashed_password := hash_password new salt },
       { db with
           users := db.users.map (fun x =>
             if x.id == uid then { u with hashed_password := hash_password new salt }
             else x)
           sessions := db.sessions.filter (fun s => s.user_id != uid) }) := by
    simp only [change_password, hu, hpw, if_neg hnl]
  rw [hcp]
  refine ⟨rfl, ?_, ?_⟩
  · intro s hs
    have h2 := (List.mem_filter.mp hs).2
    simpa using h2
  · have hnone : (db.sessions.filter (fun s => s.user_id != uid)).find?
        (fun s => s.token == t) = none := by
      apply List.find?_eq_none.mpr
      intro x hx
      rcases List.mem_filter.mp hx with ⟨hxs, hxne⟩
      intro hbeq
      have hxt : x.token = t := by simpa using hbeq
      have hxid := ht x hxs hxt
      simp [hxid] at hxne
    simp [signout, hnone]

/-- C3 witness: Alice changes her password; the session created by her
earlier signin is gone and signing out with the old access token returns
false. -/
theorem c3_change_password_revokes_all_sessions_witness :
    change_password db1 1 "password123" "newpassword456" 9 =
      (.ok { alice with hashed_password := hash_password "newpassword456" 9 },
       { db1 with
           users := db1.users.map (fun x =>
             if x.id == 1 then { alice with hashed_password := hash_password "newpassword456" 9 }
             else x)
           sessions := db1.sessions.filter (fun s => s.user_id != 1) }) ∧
    (∀ s ∈ (change_password db1 1 "password123" "newpassword456" 9).2.sessions,
      s.user_id ≠ 1) ∧
    signout (change_password db1 1 "password123" "newpassword456" 9).2 tokA =
      (false, (change_password db1 1 "password123" "newpassword456" 9).2) :=
  c3_change_password_revokes_all_sessions db1 1 "password123" "newpassword456" 9
    alice tokA rfl rfl (by decide) (by decide)

/-- C7: `signout` deletes the matching session and returns true when one
exists, returns false leaving the store unchanged when none does; under
the store's uniqueness constraint on session access tokens, a second
`signout` with the same token returns false and leaves the store
unchanged. -/
theorem c7_signout_true_then_false (db : DB) (t : Token)
    (huniq : db.sessions.countP (fun s => s.token == t) ≤ 1) :
    ((∃ s ∈ db.sessions, s.token = t) →
      signout db t =
        (true, { db with sessions := db.sessions.eraseP (fun s => s.token == t) })) ∧
    ((¬ ∃ s ∈ db.sessions, s.token = t) → signout db t = (false, db)) ∧
    (signout (signout db t).2 t).1 = false ∧
    (signout (signout db t).2 t).2 = (signout db t).2 := by
  rcases hf : db.sessions.find? (fun s => s.token == t) with _ | s
  · have hne : ¬ ∃ s ∈ db.sessions, s.token = t := by
      rintro ⟨s, hs, rfl⟩
      have h2 := List.find?_eq_none.mp hf s hs
      simp at h2
    have h1 : signout db t = (false, db) := by
      simp [signout, hf]
    exact ⟨fun hex => absurd hex hne, fun _ => h1,
      by rw [h1]; simp [signout, hf],
      by rw [h1]; simp [signout, hf]⟩
  · have h1 : signout db t =
        (true, { db with sessions := db.sessions.eraseP (fun s => s.token == t) }) := by
      simp [signout, hf]
    have h2 : (db.sessions.eraseP (fun s => s.token == t)).find?
        (fun s => s.token == t) = none :=
      find?_eraseP_of_countP_le_one _ _ huniq
    refine ⟨fun _ => h1, fun hne => ?_, ?_, ?_⟩
    · exfalso
      apply hne
      have hmem := List.mem_of_find?_eq_some hf
      have hps := List.find?_some hf
      exact ⟨s, hmem, by simpa using hps⟩
    · rw [h1]; simp [signout, h2]
    · rw [h1]; simp [signout, h2]

/-- C7 witness: signing out twice with Alice's access token. -/
theorem c7_signout_true_then_false_witness :
    signout db1 tokA =
      (true, { db1 with sessions := db1.sessions.eraseP (fun s => s.token == tokA) }) ∧
    (signout (signout db1 tokA).2 tokA).1 = false ∧
    (signout (signout db1 tokA).2 tokA).2 = (signout db1 tokA).2 :=
  ⟨(c7_signout_true_then_false db1 tokA (by decide)).1 (by decide),
   (c7_signout_true_then_false db1 tokA (by decide)).2.2.1,
   (c7_signout_true_then_false db1 tokA (by decide)).2.2.2⟩

/-- C10: `update_profile` treats `None` for `avatar_url`, `timezone` or
`language` as "omitted" and leaves the stored field untouched; and with a
provided argument it only ever writes `some` values, so a successful call
can never turn one of these fields from set back to null. -/
theorem c10_update_profile_cannot_clear_optionals
    (db : DB) (uid : Nat) (fn au tz lg : Option String) (u u' : UserRec) (db' : DB)
    (hu : get_user_by_id db uid = some u)
    (hok : update_profile db uid fn au tz lg = (.ok u', db')) :
    (au = none → u'.avatar_url = u.avatar_url) ∧
    (tz = none → u'.timezone = u.timezone) ∧
    (lg = none → u'.language = u.language) ∧
    (u'.avatar_url = none → u.avatar_url = none) ∧
    (u'.timezone = none → u.timezone = none) ∧
    (u'.language = none → u.language = none) := by
  have hp : ∀ u1 : UserRec, validateFullName u fn = .ok u1 →
      u1.avatar_url = u.avatar_url ∧ u1.timezone = u.timezone ∧
      u1.language = u.language := by
    intro u1 h
    rcases fn with _ | f
    · simp only [validateFullName, Except.ok.injEq] at h
      subst h
      exact ⟨rfl, rfl, rfl⟩
    · by_cases hf : (pyStrip f).length < 2
      · simp [validateFullName, hf] at h
      · simp only [validateFullName, if_neg hf, Except.ok.injEq] at h
        subst h
        exact ⟨rfl, rfl, rfl⟩
  simp only [update_profile, hu] at hok
  split at hok
  · simp at hok
  · rename_i u1 heq
    simp only [Prod.mk.injEq, Except.ok.injEq] at hok
    obtain ⟨h4, -⟩ := hok
    subst h4
    obtain ⟨ha, hb, hc⟩ := hp u1 heq
    rcases au with _ | a <;> rcases tz with _ | b <;> rcases lg with _ | c <;>
      simp [setAvatar, setTimezone, setLanguage, ha, hb, hc]

/-- C10 witness: setting only `avatar_url` leaves `timezone` and `language`
untouched, and no field becomes null. -/
theorem c10_update_profile_cannot_clear_optionals_witness :
    ((some "pic.png" : Option String) = none →
      ({ alice with avatar_url := some "pic.png" } : UserRec).avatar_url =
        alice.avatar_url) ∧
    ((none : Option String) = none →
      ({ alice with avatar_url := some "pic.png" } : UserRec).timezone =
        alice.timezone) ∧
    ((none : Option String) = none →
      ({ alice with avatar_url := some "pic.png" } : UserRec).language =
        alice.language) ∧
    (({ alice with avatar_url := some "pic.png" } : UserRec).avatar_url = none →
      alice.avatar_url = none) ∧
    (({ alice with avatar_url := some "pic.png" } : UserRec).timezone = none →
      alice.timezone = none) ∧
    (({ alice with avatar_url := some "pic.png" } : UserRec).language = none →
      alice.language = none) :=
  c10_update_profile_cannot_clear_optionals db1 1 none (some "pic.png") none none
    alice { alice with avatar_url := some "pic.png" }
    { db1 with users := db1.users.map (fun x =>
        if x.id == 1 then { alice with avatar_url := some "pic.png" } else x) }
    rfl rfl
